import Mathlib

/-!
Verification of the thumbnail-generator core: a shallow embedding of
`src/services/geminiService.ts` (Strategy Synthesizer and Image Renderer) and of the
orchestration functions `handleGenerate` / `renderImageOnly` of the application
component (`src/unnamed/part_000`), together with the value types of
`src/unnamed/part_001` (`types.ts`).

External provider calls are asynchronous request/response exchanges; each one is
embedded by making the provider's outcome (a successful response value, or a thrown
error carrying a message) an explicit parameter of the function that awaits it.
JavaScript strings are Lean `String`s; `undefined`/absent values are `Option`;
JS truthiness tests on strings treat only the empty string as falsy.
-/

namespace Thumbnail

/-! ## JavaScript string primitives used by the source -/

/-- JS defaulting idiom for strings, `s || d`: the empty string is falsy. -/
def jsOr (s d : String) : String := if s = "" then d else s

/-- JS optional chain plus defaulting, `x?.f || d`: an absent value and the empty
string both fall back to the default. -/
def jsOrOpt (o : Option String) (d : String) : String :=
  match o with
  | none => d
  | some s => jsOr s d

/-- Character-list comparison: does `p` occur at the head of the second list? -/
def startsList : List Char → List Char → Bool
  | [], _ => true
  | _ :: _, [] => false
  | p :: ps, c :: cs => p == c && startsList ps cs

/-- Does `pat` occur as a contiguous run somewhere in the list? -/
def hasSub (pat : List Char) : List Char → Bool
  | [] => startsList pat []
  | c :: rest => startsList pat (c :: rest) || hasSub pat rest

/-- JS `s.includes(pat)`. -/
def strIncludes (s pat : String) : Bool := hasSub pat.data s.data

/-- JS `s.startsWith(pre)`. -/
def strStartsWith (s h : String) : Bool := startsList h.data s.data

/-- JS `s.split(',')` on the character list: comma-separated segments, keeping empty
segments, with `[[]]` for the empty string. -/
def splitComma : List Char → List (List Char)
  | [] => [[]]
  | c :: rest =>
    if c = ',' then [] :: splitComma rest
    else
      match splitComma rest with
      | s :: ss => (c :: s) :: ss
      | [] => [[c]]

/-- JS `s.split(',')` on strings. -/
def jsSplitComma (s : String) : List String := (splitComma s.data).map String.mk

/-! ## Value types (`types.ts`, `src/unnamed/part_001`) -/

/-- The `Emotion` enum. -/
inductive Emotion
  | shock
  | curiosity
  | excitement
  | fear
  | urgency
deriving DecidableEq

/-- The string value of each `Emotion` member. -/
def Emotion.str : Emotion → String
  | .shock => "Shock"
  | .curiosity => "Curiosity"
  | .excitement => "Excitement"
  | .fear => "Fear"
  | .urgency => "Urgency"

/-- The `AspectRatio` string union. -/
inductive AspectRatio
  | r16x9
  | r9x16
  | r1x1
  | r4x3
deriving DecidableEq

/-- The underlying string of an `AspectRatio` member. -/
def AspectRatio.str : AspectRatio → String
  | .r16x9 => "16:9"
  | .r9x16 => "9:16"
  | .r1x1 => "1:1"
  | .r4x3 => "4:3"

/-- `ThumbnailImage`: a reference image as an embedded data URL plus media type. -/
structure ThumbnailImage where
  data : String
  mimeType : String
deriving DecidableEq

/-- `ThumbnailRequest`: the user's structured request. `subjectDescription` is an
optional field in the TS interface. -/
structure ThumbnailRequest where
  title : String
  niche : String
  emotion : Emotion
  ratio : AspectRatio
  subjectDescription : Option String
  subjectImages : List ThumbnailImage
deriving DecidableEq

/-- A JSON field that the schema requests as an array of strings. At runtime it can be
absent, present with a non-array value, or an actual array; `Array.isArray` at
`geminiService.ts:118` is the discriminator, so only these three cases matter. -/
inductive JsonArrayField
  | missing
  | nonArray
  | array (elems : List String)
deriving DecidableEq

/-- The coercion `Array.isArray(x) ? x : []` (`geminiService.ts:118-119`). -/
def JsonArrayField.coerce : JsonArrayField → List String
  | .array l => l
  | _ => []

/-- `Array.isArray` on such a field. -/
def JsonArrayField.isArr : JsonArrayField → Bool
  | .array _ => true
  | _ => false

/-- `ThumbnailDesign.concept`. Fields are `Option` because the document arrives from
`JSON.parse` of provider text: the TS interface is not enforced at runtime, and the
consumer reads every field through optional chaining. -/
structure DesignConcept where
  idea : Option String
  hook : Option String
deriving DecidableEq

/-- `ThumbnailDesign.visualElements`. -/
structure VisualElements where
  expression : Option String
  objects : JsonArrayField
  directionalElements : JsonArrayField
  backgroundStyle : Option String
deriving DecidableEq

/-- `ThumbnailDesign.colorPalette`. -/
structure ColorPalette where
  primary : Option String
  accent : Option String
  text : Option String
  background : Option String
deriving DecidableEq

/-- `ThumbnailDesign.layoutInstructions`. -/
structure LayoutInstructions where
  textPlacement : Option String
  subjectPlacement : Option String
  arrowDirections : JsonArrayField
  negativeSpace : Option String
deriving DecidableEq

/-- `ThumbnailDesign`: the Strategy Document as received at runtime. -/
structure ThumbnailDesign where
  concept : Option DesignConcept
  mainText : Option String
  visualElements : Option VisualElements
  colorPalette : Option ColorPalette
  layoutInstructions : Option LayoutInstructions
deriving DecidableEq

/-- `GenerationResult`: the orchestrator's current result. -/
structure GenerationResult where
  strategy : ThumbnailDesign
  imageUrl : Option String
deriving DecidableEq

/-! ## Optional chains used by the renderer's prompt -/

/-- `strategy.visualElements?.objects` as seen by `Array.isArray`: an absent
`visualElements` yields an absent field. -/
def ThumbnailDesign.objectsField (s : ThumbnailDesign) : JsonArrayField :=
  match s.visualElements with
  | some v => v.objects
  | none => .missing

/-- `strategy.visualElements?.directionalElements`, same convention. -/
def ThumbnailDesign.directionalsField (s : ThumbnailDesign) : JsonArrayField :=
  match s.visualElements with
  | some v => v.directionalElements
  | none => .missing

/-- The coerced `objects` constant of `geminiService.ts:118`. -/
def coercedObjects (s : ThumbnailDesign) : List String := s.objectsField.coerce

/-- The coerced `directionalElements` constant of `geminiService.ts:119`. -/
def coercedDirectionals (s : ThumbnailDesign) : List String := s.directionalsField.coerce

/-- `strategy.visualElements?.expression`. -/
def optExpression (s : ThumbnailDesign) : Option String :=
  s.visualElements.bind (·.expression)

/-- `strategy.concept?.idea`. -/
def optIdea (s : ThumbnailDesign) : Option String :=
  s.concept.bind (·.idea)

/-- `strategy.layoutInstructions?.textPlacement`. -/
def optTextPlacement (s : ThumbnailDesign) : Option String :=
  s.layoutInstructions.bind (·.textPlacement)

/-- `strategy.colorPalette?.primary`. -/
def optPrimary (s : ThumbnailDesign) : Option String :=
  s.colorPalette.bind (·.primary)

/-- `strategy.colorPalette?.accent`. -/
def optAccent (s : ThumbnailDesign) : Option String :=
  s.colorPalette.bind (·.accent)

/-- `strategy.visualElements?.backgroundStyle`. -/
def optBackgroundStyle (s : ThumbnailDesign) : Option String :=
  s.visualElements.bind (·.backgroundStyle)

/-! ## Request parts sent to the providers -/

/-- A content part of a provider request: either text, or an inline payload with a
declared media type. `data` is `Option` because `img.data.split(',')[1]` can be
`undefined` in JS. -/
inductive ReqPart
  | text (t : String)
  | inline (data : Option String) (mimeType : String)
deriving DecidableEq

/-- The inline payload of one reference image: `img.data.split(',')[1]`
(`geminiService.ts:58` and `geminiService.ts:138`). -/
def inlinePayload (img : ThumbnailImage) : Option String :=
  (jsSplitComma img.data)[1]?

/-- The `forEach`/`push` loop attaching each reference image as an inline part, common
to both service functions. -/
def imageInlineParts (imgs : List ThumbnailImage) : List ReqPart :=
  imgs.map (fun img => ReqPart.inline (inlinePayload img) img.mimeType)

/-- The fixed instruction line closing the rendering prompt (`geminiService.ts:131`). -/
def referenceInstruction : String :=
  "Use the provided reference image(s) to accurately represent the person or subject."

/-- The rendering prompt of `generateThumbnailImage` (`geminiService.ts:121-132`),
verbatim, with each interpolated expression embedded by its model above.
Concatenation is parenthesized to the right so that proofs can peel pieces from
the left one at a time. -/
def imagePromptText (s : ThumbnailDesign) (ratio : String) : String :=
  "\n        Viral " ++
  (ratio ++
  (" YouTube/Social Media Thumbnail. High CTR style.\n        Subject: " ++
  (jsOrOpt (optExpression s) "person" ++
  (".\n        Focus: " ++
  (jsOrOpt (optIdea s) "intense scene" ++
  (".\n        Props: " ++
  (jsOr (String.intercalate ", " (coercedObjects s)) "none" ++
  (".\n        Text: Giant 3D bold text saying \"" ++
  (jsOrOpt s.mainText "" ++
  ("\" placed at " ++
  (jsOrOpt (optTextPlacement s) "center" ++
  (".\n        Aesthetics: Extremely high contrast, vibrant " ++
  (jsOrOpt (optPrimary s) "red" ++
  (" and " ++
  (jsOrOpt (optAccent s) "yellow" ++
  (" colors. \n        Glow effects, thick outlines, directional " ++
  (jsOr (String.intercalate ", " (coercedDirectionals s)) "arrows" ++
  (".\n        Background: " ++
  (jsOrOpt (optBackgroundStyle s) "vibrant gradient" ++
  (".\n        Masterpiece, 4k, hyper-detailed, MrBeast aesthetic.\n        " ++
  (referenceInstruction ++
  "\n      ")))))))))))))))))))))

/-- The content parts of the image-generation request: the text part followed by one
inline part per reference image (`geminiService.ts:134-142`). -/
def imageRequestParts (s : ThumbnailDesign) (ratio : String)
    (imgs : List ThumbnailImage) : List ReqPart :=
  ReqPart.text (imagePromptText s ratio) :: imageInlineParts imgs

/-- The instruction text of `generateStrategy` (`geminiService.ts:14-51`), verbatim.
Literal braces of the embedded JSON sample are written with hex escapes. -/
def strategyPromptText (req : ThumbnailRequest) : String :=
  "\n        ROLE: Professional YouTube Thumbnail Design AI (High-CTR specialist).\n        OBJECTIVE: Design a viral, click-optimized concept for " ++
  (req.ratio.str ++
  (" aspect ratio.\n        \n        CONTEXT:\n        Title: \"" ++
  (req.title ++
  ("\"\n        Niche: \"" ++
  (req.niche ++
  ("\"\n        Emotion: \"" ++
  (req.emotion.str ++
  ("\"\n        Subject: \"" ++
  (jsOrOpt req.subjectDescription "Not specified" ++
  ("\"\n\n        CORE RULES:\n        1. Emotionally intense focal point.\n        2. Simple (1-2 focal points max).\n        3. Bold typography (3-6 words MAX, capital letters).\n        4. High contrast colors.\n        5. Respect the " ++
  (req.ratio.str ++
  (" aspect ratio in layout instructions.\n\n        IMPORTANT: I am providing " ++
  (toString req.subjectImages.length ++
  (" reference image(s). Use them to understand the look and feel of the subject(s).\n\n        Return a JSON object:\n        \x7b\n          \"concept\": \x7b \"idea\": \"one clear visual idea\", \"hook\": \"emotional hook explanation\" \x7d,\n          \"mainText\": \"3-6 WORDS MAX, ALL CAPS\",\n          \"visualElements\": \x7b \n            \"expression\": \"shocked face / excited / etc\", \n            \"objects\": [\"primary object\", \"accent object\"], \n            \"directionalElements\": [\"red arrow\", \"yellow circle\"], \n            \"backgroundStyle\": \"gradient / blurred office / etc\" \n          \x7d,\n          \"colorPalette\": \x7b \"primary\": \"CSS color\", \"accent\": \"CSS color\", \"text\": \"CSS color\", \"background\": \"CSS color\" \x7d,\n          \"layoutInstructions\": \x7b \n            \"textPlacement\": \"left/right/center\", \n            \"subjectPlacement\": \"opposite to text\", \n            \"arrowDirections\": [\"towards text\", \"towards face\"], \n            \"negativeSpace\": \"area to keep clear\" \n          \x7d\n        \x7d\n      "))))))))))))))

/-- The content parts of the reasoning request: the text part followed by one inline
part per reference image (`geminiService.ts:54-62`). The schema configuration of the
call constrains the response shape and carries no data from the request. -/
def strategyRequestParts (req : ThumbnailRequest) : List ReqPart :=
  ReqPart.text (strategyPromptText req) :: imageInlineParts req.subjectImages

/-! ## Provider outcomes and the service result handling -/

/-- A thrown JS error, as observed through its `message`. -/
structure JsError where
  message : String
deriving DecidableEq

/-- Validation message of `handleGenerate` (`part_000:149`). -/
def validationMsg : String := "Please fill in the title and niche."

/-- Message of the empty-response failure (`geminiService.ts:155`). -/
def emptyResponseMsg : String :=
  "Empty image response. This usually indicates safety filter intervention."

/-- Message of the no-image-payload failure (`geminiService.ts:164`). -/
def noImagePayloadMsg : String := "No image data returned from rendering engine."

/-- Message substituted for safety failures (`geminiService.ts:167`). -/
def safetyBlockMsg : String :=
  "Safety Block: The content or subject image triggered safety filters. Try a different concept."

/-- Fallback error text of `renderImageOnly` (`part_000:141`). -/
def renderFallbackMsg : String := "Rendering hit a snag. Retrying often fixes this."

/-- Fallback error text of `handleGenerate` (`part_000:164`). -/
def strategyFallbackMsg : String := "Failed to generate strategy."

/-- The fixed data-URL lead-in of a successful render (`geminiService.ts:160`). -/
def dataUrlPngHead : String := "data:image/png;base64,"

/-- Inline image data of a response part. `mimeType` is carried but never read by the
extraction loop. -/
structure RespInlineData where
  data : String
  mimeType : Option String
deriving DecidableEq

/-- A content part of an image-provider response; only `inlineData` is read. -/
structure RespPart where
  inlineData : Option RespInlineData
deriving DecidableEq

/-- `candidate.content` of an image-provider response. -/
structure RespContent where
  parts : Option (List RespPart)
deriving DecidableEq

/-- One response candidate. -/
structure Candidate where
  content : Option RespContent
deriving DecidableEq

/-- An image-provider response. -/
structure ImageResponse where
  candidates : Option (List Candidate)
deriving DecidableEq

/-- The optional chain `response.candidates?.[0]?.content?.parts`
(`geminiService.ts:154`). -/
def firstParts (r : ImageResponse) : Option (List RespPart) :=
  match r.candidates with
  | none => none
  | some [] => none
  | some (c :: _) =>
    match c.content with
    | none => none
    | some ct => ct.parts

/-- The scan loop of `geminiService.ts:158-162`: the first part carrying `inlineData`. -/
def firstInline : List RespPart → Option RespInlineData
  | [] => none
  | p :: rest =>
    match p.inlineData with
    | some d => some d
    | none => firstInline rest

/-- The response handling of `generateThumbnailImage` (`geminiService.ts:154-164`),
before the catch block. -/
def extractImage (r : ImageResponse) : Except JsError String :=
  match firstParts r with
  | none => .error ⟨emptyResponseMsg⟩
  | some parts =>
    match firstInline parts with
    | some d => .ok (dataUrlPngHead ++ d.data)
    | none => .error ⟨noImagePayloadMsg⟩

/-- The catch block of `geminiService.ts:165-169`: a failure whose message includes
the marker SAFETY is replaced by the safety-block error; any other failure is
rethrown unchanged. -/
def rethrowSafety (e : JsError) : JsError :=
  if strIncludes e.message "SAFETY" then ⟨safetyBlockMsg⟩ else e

/-- `generateThumbnailImage`, as a function of the image-provider call outcome: a
successful response is scanned for image data, and every failure arising inside the
try block (a thrown provider error, or one of the two extraction errors) passes
through the catch block. -/
def generateThumbnailImageResult (outcome : Except JsError ImageResponse) :
    Except JsError String :=
  match outcome with
  | .error e => .error (rethrowSafety e)
  | .ok r =>
    match extractImage r with
    | .ok s => .ok s
    | .error e => .error (rethrowSafety e)

/-- The tail of `generateStrategy` (`geminiService.ts:113`): the provider text is fed
to `JSON.parse`; the parse outcome is a parameter (`none` means the trimmed text is
not valid JSON, in which case the parser throws with message `msg`). -/
def generateStrategyResult (parsed : Option ThumbnailDesign) (msg : String) :
    Except JsError ThumbnailDesign :=
  match parsed with
  | none => .error ⟨msg⟩
  | some d => .ok d

/-! ## The orchestrator (`src/unnamed/part_000`) -/

/-- The `loadingPhase` state. -/
inductive Phase
  | idle
  | strategizing
  | rendering
deriving DecidableEq

/-- The orchestrator's mutable state triple. -/
structure AppState where
  loadingPhase : Phase
  result : Option GenerationResult
  error : Option String
deriving DecidableEq

/-- A call issued to an external provider. -/
inductive ProviderCall
  | reasoning
  | image
deriving DecidableEq

/-- `renderImageOnly` (`part_000:132-145`), as a function of the state, the strategy
argument, and the awaited outcome of `service.generateThumbnailImage`. Returns the
final state and the provider calls issued. -/
def renderImageOnly (s : AppState) (strategy : ThumbnailDesign)
    (outcome : Except JsError String) : AppState × List ProviderCall :=
  let s1 : AppState := { s with loadingPhase := .rendering, error := none }
  match outcome with
  | .ok imageUrl =>
    let newResult : GenerationResult :=
      match s1.result with
      | some prev => { prev with imageUrl := some imageUrl }
      | none => { strategy := strategy, imageUrl := some imageUrl }
    ({ s1 with result := some newResult, loadingPhase := .idle }, [.image])
  | .error e =>
    let s2 : AppState := { s1 with error := some (jsOr e.message renderFallbackMsg) }
    ({ s2 with loadingPhase := .idle }, [.image])

/-- `handleGenerate` (`part_000:147-167`), as a function of the state, the form, and
the awaited outcomes of the two service calls. The render outcome is consumed only on
synthesis success, matching the sequencing of the source. -/
def handleGenerate (s : AppState) (form : ThumbnailRequest)
    (strategyOutcome : Except JsError ThumbnailDesign)
    (renderOutcome : Except JsError String) : AppState × List ProviderCall :=
  if form.title = "" ∨ form.niche = "" then
    ({ s with error := some validationMsg }, [])
  else
    let s0 : AppState := { s with result := none }
    let s1 : AppState := { s0 with loadingPhase := .strategizing, error := none }
    match strategyOutcome with
    | .ok strategy =>
      let s2 : AppState := { s1 with
        result := some { strategy := strategy, imageUrl := none } }
      let step := renderImageOnly s2 strategy renderOutcome
      (step.1, .reasoning :: step.2)
    | .error e =>
      let s2 : AppState := { s1 with error := some (jsOr e.message strategyFallbackMsg) }
      ({ s2 with loadingPhase := .idle }, [.reasoning])

/-- Repeated manual Render invocations on the same strategy: fold the render
transition over a list of image-provider outcomes, concatenating the issued calls. -/
def renderRepeatedly (s : AppState) (strategy : ThumbnailDesign) :
    List (Except JsError String) → AppState × List ProviderCall
  | [] => (s, [])
  | o :: rest =>
    let step := renderImageOnly s strategy o
    let next := renderRepeatedly step.1 strategy rest
    (next.1, step.2 ++ next.2)

/-! ## The claimed payload shape of C10, stated from the claim's words -/

/-- Everything after the first comma of the list, absent when there is no comma.
Stated from the claim's description of the transmitted payload, to be compared with
the source's `inlinePayload`. -/
def claimedPayload : List Char → Option (List Char)
  | [] => none
  | c :: rest => if c = ',' then some rest else claimedPayload rest

/-- String form of `claimedPayload`. -/
def claimedPayloadStr (s : String) : Option String :=
  (claimedPayload s.data).map String.mk

/-! ## Concrete values used by witnesses and counterexamples -/

/-- A Strategy Document with every field absent. -/
def sampleDesign : ThumbnailDesign :=
  { concept := none, mainText := none, visualElements := none, colorPalette := none,
    layoutInstructions := none }

/-- A current result holding `sampleDesign` and no image. -/
def sampleResult : GenerationResult := { strategy := sampleDesign, imageUrl := none }

/-- An idle state with no result. -/
def idleState : AppState := { loadingPhase := .idle, result := none, error := none }

/-- An idle state whose current result is `sampleResult`. -/
def stateWithResult : AppState :=
  { loadingPhase := .idle, result := some sampleResult, error := none }

/-- A request whose title is empty. -/
def emptyTitleForm : ThumbnailRequest :=
  { title := "", niche := "Tech", emotion := .shock, ratio := .r16x9,
    subjectDescription := none, subjectImages := [] }

/-- A request with both required fields filled. -/
def filledForm : ThumbnailRequest :=
  { title := "I Tried X for 30 Days", niche := "Fitness", emotion := .shock,
    ratio := .r16x9, subjectDescription := none, subjectImages := [] }

/-- A response with no candidates field. -/
def respNoCandidates : ImageResponse := { candidates := none }

/-- A response part without inline data (a text part, say). -/
def textOnlyPart : RespPart := { inlineData := none }

/-- The inline image data used by the render witness: its declared media type is not
PNG. -/
def jpegInline : RespInlineData := { data := "AAAA", mimeType := some "image/jpeg" }

/-- A response wrapping a given list of parts in one candidate. -/
def respOfParts (l : List RespPart) : ImageResponse :=
  { candidates := some [{ content := some { parts := some l } }] }

/-- A response whose single candidate has one part without inline data. -/
def respNoInline : ImageResponse := respOfParts [textOnlyPart]

/-- A response whose single candidate has a text part followed by an inline part whose
declared media type is not PNG. -/
def respWithImage : ImageResponse :=
  respOfParts [textOnlyPart, { inlineData := some jpegInline }]

/-! ## String lemmas -/

/-- Appending strings appends their character lists. -/
theorem data_append (a b : String) : (a ++ b).data = a.data ++ b.data := rfl

/-- A list is a lead of itself followed by anything. -/
theorem startsList_self (p y : List Char) : startsList p (p ++ y) = true := by
  induction p with
  | nil => rfl
  | cons c cs ih => simp [startsList, ih]

/-- A match at the head is an occurrence. -/
theorem hasSub_of_startsList {pat hay : List Char} (h : startsList pat hay = true) :
    hasSub pat hay = true := by
  cases hay with
  | nil => simpa [hasSub] using h
  | cons c rest => simp [hasSub, h]

/-- An occurrence survives one extra leading character. -/
theorem hasSub_cons {pat t : List Char} (c : Char) (h : hasSub pat t = true) :
    hasSub pat (c :: t) = true := by
  simp [hasSub, h]

/-- An occurrence survives any extra leading run. -/
theorem hasSub_append_left {pat t : List Char} (x : List Char)
    (h : hasSub pat t = true) : hasSub pat (x ++ t) = true := by
  induction x with
  | nil => simpa using h
  | cons c cs ih => simpa using hasSub_cons c ih

/-- A pattern occurs in itself followed by anything. -/
theorem hasSub_here (p y : List Char) : hasSub p (p ++ y) = true :=
  hasSub_of_startsList (startsList_self p y)

/-- String form of `hasSub_append_left`. -/
theorem strIncludes_append_left (x t pat : String) (h : strIncludes t pat = true) :
    strIncludes (x ++ t) pat = true := by
  unfold strIncludes at h ⊢
  rw [data_append]
  exact hasSub_append_left x.data h

/-- String form of `hasSub_here`. -/
theorem strIncludes_here (p y : String) : strIncludes (p ++ y) p = true := by
  unfold strIncludes
  rw [data_append]
  exact hasSub_here p.data y.data

/-- A concatenation starts with its own first operand. -/
theorem strStartsWith_append (p y : String) : strStartsWith (p ++ y) p = true := by
  unfold strStartsWith
  rw [data_append]
  exact startsList_self p.data y.data

/-! ## Lemmas about the embedded service functions -/

/-- A field that is not an array coerces to the empty sequence. -/
theorem coerce_of_not_array {f : JsonArrayField} (h : f.isArr = false) :
    f.coerce = [] := by
  cases f with
  | missing => rfl
  | nonArray => rfl
  | array l => simp [JsonArrayField.isArr] at h

/-- The scan loop finds nothing in a list of parts without inline data. -/
theorem firstInline_eq_none : ∀ {l : List RespPart},
    (∀ p ∈ l, p.inlineData = none) → firstInline l = none := by
  intro l
  induction l with
  | nil => intro _; rfl
  | cons p ps ih =>
    intro h
    have hp := h p (List.mem_cons_self p ps)
    have hr := ih (fun q hq => h q (List.mem_cons_of_mem p hq))
    simp [firstInline, hp, hr]

/-- The scan loop skips a leading run of parts without inline data. -/
theorem firstInline_append_none (rest : List RespPart) : ∀ {l1 : List RespPart},
    (∀ q ∈ l1, q.inlineData = none) → firstInline (l1 ++ rest) = firstInline rest := by
  intro l1
  induction l1 with
  | nil => intro _; rfl
  | cons p ps ih =>
    intro h
    have hp := h p (List.mem_cons_self p ps)
    have hr := ih (fun q hq => h q (List.mem_cons_of_mem p hq))
    simp [firstInline, hp, hr]

/-- Splitting a comma-free list yields that one segment. -/
theorem splitComma_no_comma : ∀ {l : List Char}, ',' ∉ l → splitComma l = [l] := by
  intro l
  induction l with
  | nil => intro _; rfl
  | cons c rest ih =>
    intro h
    simp only [List.mem_cons, not_or] at h
    have hc : ¬ c = ',' := fun e => h.1 e.symm
    simp [splitComma, hc, ih h.2]

/-- Splitting past a comma-free lead produces that lead as the first segment. -/
theorem splitComma_past_lead (b : List Char) : ∀ {a : List Char}, ',' ∉ a →
    splitComma (a ++ ',' :: b) = a :: splitComma b := by
  intro a
  induction a with
  | nil => intro _; simp [splitComma]
  | cons c rest ih =>
    intro h
    simp only [List.mem_cons, not_or] at h
    have hc : ¬ c = ',' := fun e => h.1 e.symm
    simp [splitComma, hc, ih h.2]

/-! ## Claims -/

set_option maxRecDepth 100000 in
/-- C1, counterexample: with the empty reference-image sequence and a concrete
Strategy Document, the assembled rendering prompt nevertheless contains the
instruction to depict the supplied subject faithfully, refuting the claimed
equivalence between that instruction's presence and the sequence being non-empty. -/
theorem c1_instruction_unconditional_counterexample :
    ¬ (strIncludes (imagePromptText sampleDesign "16:9") referenceInstruction = true
        ↔ ([] : List ThumbnailImage) ≠ []) := by
  intro hIff
  have hc : strIncludes (imagePromptText sampleDesign "16:9") referenceInstruction
      = true := by
    unfold imagePromptText
    repeat (first | exact strIncludes_here _ _ | apply strIncludes_append_left)
  exact hIff.mp hc rfl

set_option maxRecDepth 100000 in
/-- C1 (amended): for every Strategy Document, ratio string, and reference-image
sequence — including the empty one — the rendering prompt assembled by the Image
Renderer contains the instruction to depict the supplied subject faithfully: the
instruction is unconditional. -/
theorem c1_prompt_always_instructs_fidelity (s : ThumbnailDesign) (r : String)
    (imgs : List ThumbnailImage) :
    strIncludes (imagePromptText s r) referenceInstruction = true := by
  unfold imagePromptText
  repeat (first | exact strIncludes_here _ _ | apply strIncludes_append_left)

/-- C2: for a Strategy Request whose title or niche is empty, Generate sets the
validation error, leaves the phase at Idle, leaves the current result unchanged, and
issues no provider call. -/
theorem c2_generate_validation (s : AppState) (form : ThumbnailRequest)
    (so : Except JsError ThumbnailDesign) (ro : Except JsError String)
    (hv : form.title = "" ∨ form.niche = "") (hp : s.loadingPhase = Phase.idle) :
    (handleGenerate s form so ro).1.loadingPhase = Phase.idle ∧
    (handleGenerate s form so ro).1.result = s.result ∧
    (handleGenerate s form so ro).1.error = some validationMsg ∧
    (handleGenerate s form so ro).2 = [] := by
  unfold handleGenerate
  rw [if_pos hv]
  exact ⟨hp, rfl, rfl, rfl⟩

/-- Witness for C2 at a concrete empty-title request. -/
theorem c2_generate_validation_witness :
    (handleGenerate idleState emptyTitleForm (Except.error ⟨"e1"⟩)
        (Except.error ⟨"e2"⟩)).1.loadingPhase = Phase.idle ∧
    (handleGenerate idleState emptyTitleForm (Except.error ⟨"e1"⟩)
        (Except.error ⟨"e2"⟩)).1.result = idleState.result ∧
    (handleGenerate idleState emptyTitleForm (Except.error ⟨"e1"⟩)
        (Except.error ⟨"e2"⟩)).1.error = some validationMsg ∧
    (handleGenerate idleState emptyTitleForm (Except.error ⟨"e1"⟩)
        (Except.error ⟨"e2"⟩)).2 = [] :=
  c2_generate_validation idleState emptyTitleForm (Except.error ⟨"e1"⟩)
    (Except.error ⟨"e2"⟩) (Or.inl rfl) rfl

/-- C3: when the current result holds a Strategy Document, a failed Render records
the error, leaves the existing result (with its strategy and without acquiring an
image) intact, and returns the phase to Idle; a successful Render attaches the
returned image to the current result while preserving the existing strategy. -/
theorem c3_render_preserves_strategy (s : AppState) (prev : GenerationResult)
    (strategy : ThumbnailDesign) (h : s.result = some prev) :
    (∀ e : JsError,
      (renderImageOnly s strategy (Except.error e)).1.result = some prev ∧
      (renderImageOnly s strategy (Except.error e)).1.error
          = some (jsOr e.message renderFallbackMsg) ∧
      (renderImageOnly s strategy (Except.error e)).1.loadingPhase = Phase.idle) ∧
    (∀ url : String,
      (renderImageOnly s strategy (Except.ok url)).1.result
          = some { strategy := prev.strategy, imageUrl := some url } ∧
      (renderImageOnly s strategy (Except.ok url)).1.loadingPhase = Phase.idle) := by
  constructor
  · intro e
    refine ⟨?_, rfl, rfl⟩
    simp [renderImageOnly, h]
  · intro url
    refine ⟨?_, rfl⟩
    simp [renderImageOnly, h]

/-- Witness for C3 at a concrete state holding a result. -/
theorem c3_render_preserves_strategy_witness :
    (renderImageOnly stateWithResult sampleDesign
        (Except.error ⟨"boom"⟩)).1.result = some sampleResult ∧
    (renderImageOnly stateWithResult sampleDesign (Except.ok "img")).1.result
      = some { strategy := sampleResult.strategy, imageUrl := some "img" } := by
  have h := c3_render_preserves_strategy stateWithResult sampleResult sampleDesign rfl
  exact ⟨(h.1 ⟨"boom"⟩).1, (h.2 "img").1⟩

/-- C4: any number of manual Render invocations on the same Strategy Document issue
exactly one image-provider call each and never a reasoning-provider call. -/
theorem c4_rerender_only_image_calls (s : AppState) (strategy : ThumbnailDesign)
    (outs : List (Except JsError String)) :
    (renderRepeatedly s strategy outs).2
      = List.replicate outs.length ProviderCall.image := by
  induction outs generalizing s with
  | nil => rfl
  | cons o rest ih =>
    cases o with
    | ok v => simp [renderRepeatedly, renderImageOnly, ih, List.replicate_succ]
    | error e => simp [renderRepeatedly, renderImageOnly, ih, List.replicate_succ]

set_option maxRecDepth 100000 in
/-- C5: when `visualElements.objects` (respectively `.directionalElements`) is absent
or not a sequence, the renderer coerces it to the empty sequence and the prompt is
built with the literal text for the props (respectively directional) default, the
prompt construction being a total function. -/
theorem c5_coerce_missing_arrays (s : ThumbnailDesign) (r : String) :
    (s.objectsField.isArr = false →
      coercedObjects s = [] ∧
      strIncludes (imagePromptText s r) "Props: none." = true) ∧
    (s.directionalsField.isArr = false →
      coercedDirectionals s = [] ∧
      strIncludes (imagePromptText s r) "directional arrows." = true) := by
  constructor
  · intro h
    have hobj : coercedObjects s = [] := coerce_of_not_array h
    refine ⟨hobj, ?_⟩
    unfold imagePromptText
    rw [hobj]
    apply strIncludes_append_left
    apply strIncludes_append_left
    apply strIncludes_append_left
    apply strIncludes_append_left
    apply strIncludes_append_left
    apply strIncludes_append_left
    rfl
  · intro h
    have hdir : coercedDirectionals s = [] := coerce_of_not_array h
    refine ⟨hdir, ?_⟩
    unfold imagePromptText
    rw [hdir]
    apply strIncludes_append_left
    apply strIncludes_append_left
    apply strIncludes_append_left
    apply strIncludes_append_left
    apply strIncludes_append_left
    apply strIncludes_append_left
    apply strIncludes_append_left
    apply strIncludes_append_left
    apply strIncludes_append_left
    apply strIncludes_append_left
    apply strIncludes_append_left
    apply strIncludes_append_left
    apply strIncludes_append_left
    apply strIncludes_append_left
    apply strIncludes_append_left
    apply strIncludes_append_left
    rfl

/-- Witness for C5 at the all-absent Strategy Document. -/
theorem c5_coerce_missing_arrays_witness :
    coercedObjects sampleDesign = [] ∧
    strIncludes (imagePromptText sampleDesign "16:9") "Props: none." = true ∧
    coercedDirectionals sampleDesign = [] ∧
    strIncludes (imagePromptText sampleDesign "16:9") "directional arrows."
      = true := by
  have h := c5_coerce_missing_arrays sampleDesign "16:9"
  have h1 := h.1 (by decide)
  have h2 := h.2 (by decide)
  exact ⟨h1.1, h1.2, h2.1, h2.2⟩

/-- C6: a response with no content parts reachable through the first candidate fails
with the empty-response error, and a response whose first candidate's parts carry no
inline image data fails with the distinct no-image-payload error. -/
theorem c6_render_error_flavors (r : ImageResponse) :
    (firstParts r = none → extractImage r = Except.error ⟨emptyResponseMsg⟩) ∧
    (∀ l, firstParts r = some l → (∀ p ∈ l, p.inlineData = none) →
      extractImage r = Except.error ⟨noImagePayloadMsg⟩) ∧
    emptyResponseMsg ≠ noImagePayloadMsg := by
  refine ⟨?_, ?_, by decide⟩
  · intro h
    unfold extractImage
    rw [h]
  · intro l hl hnone
    simp [extractImage, hl, firstInline_eq_none hnone]

/-- Witness for C6 at a candidate-free response and at a response with a single
non-image part. -/
theorem c6_render_error_flavors_witness :
    extractImage respNoCandidates = Except.error ⟨emptyResponseMsg⟩ ∧
    extractImage respNoInline = Except.error ⟨noImagePayloadMsg⟩ :=
  ⟨(c6_render_error_flavors respNoCandidates).1 rfl,
   (c6_render_error_flavors respNoInline).2.1 [textOnlyPart] rfl (by decide)⟩

/-- C7: a failure inside the Image Renderer whose message indicates a safety
violation is re-surfaced as the safety-block error carrying the guidance to try a
different concept; any other failure — a thrown provider error or an extraction
error — is propagated unchanged. -/
theorem c7_safety_block_rethrow (e : JsError) (r : ImageResponse) :
    (strIncludes e.message "SAFETY" = true →
      generateThumbnailImageResult (Except.error e)
        = Except.error ⟨safetyBlockMsg⟩) ∧
    (strIncludes e.message "SAFETY" = false →
      generateThumbnailImageResult (Except.error e) = Except.error e) ∧
    (extractImage r = Except.error e → strIncludes e.message "SAFETY" = true →
      generateThumbnailImageResult (Except.ok r)
        = Except.error ⟨safetyBlockMsg⟩) ∧
    (extractImage r = Except.error e → strIncludes e.message "SAFETY" = false →
      generateThumbnailImageResult (Except.ok r) = Except.error e) ∧
    strIncludes safetyBlockMsg "Try a different concept." = true := by
  refine ⟨?_, ?_, ?_, ?_, by rfl⟩
  · intro h
    simp [generateThumbnailImageResult, rethrowSafety, h]
  · intro h
    simp [generateThumbnailImageResult, rethrowSafety, h]
  · intro hx h
    simp [generateThumbnailImageResult, rethrowSafety, hx, h]
  · intro hx h
    simp [generateThumbnailImageResult, rethrowSafety, hx, h]

/-- Witness for C7 at a safety-marked message and a plain message. -/
theorem c7_safety_block_rethrow_witness :
    generateThumbnailImageResult (Except.error ⟨"SAFETY: blocked"⟩)
      = Except.error ⟨safetyBlockMsg⟩ ∧
    generateThumbnailImageResult (Except.error ⟨"rate limited"⟩)
      = Except.error ⟨"rate limited"⟩ :=
  ⟨(c7_safety_block_rethrow ⟨"SAFETY: blocked"⟩ respNoCandidates).1 (by rfl),
   (c7_safety_block_rethrow ⟨"rate limited"⟩ respNoCandidates).2.1 (by rfl)⟩

/-- C8: when the reasoning-provider text does not parse as JSON, the Strategy
Synthesizer fails with the provider error, and Generate (on a request passing
validation) records the error, returns the phase to Idle, and stores no result. -/
theorem c8_unparseable_json_no_result (s : AppState) (form : ThumbnailRequest)
    (msg : String) (ro : Except JsError String)
    (ht : form.title ≠ "") (hn : form.niche ≠ "") :
    generateStrategyResult none msg = Except.error ⟨msg⟩ ∧
    (handleGenerate s form (generateStrategyResult none msg) ro).1.result = none ∧
    (handleGenerate s form (generateStrategyResult none msg) ro).1.loadingPhase
      = Phase.idle ∧
    (handleGenerate s form (generateStrategyResult none msg) ro).1.error
      = some (jsOr msg strategyFallbackMsg) := by
  have hcond : ¬ (form.title = "" ∨ form.niche = "") := by
    intro hc
    cases hc with
    | inl h => exact ht h
    | inr h => exact hn h
  refine ⟨rfl, ?_, ?_, ?_⟩ <;>
    (unfold handleGenerate; rw [if_neg hcond]; rfl)

/-- Witness for C8 at a concrete valid request and unparseable text. -/
theorem c8_unparseable_json_no_result_witness :
    generateStrategyResult none "Unexpected token" = Except.error ⟨"Unexpected token"⟩ ∧
    (handleGenerate idleState filledForm (generateStrategyResult none "Unexpected token")
        (Except.ok "x")).1.result = none ∧
    (handleGenerate idleState filledForm (generateStrategyResult none "Unexpected token")
        (Except.ok "x")).1.loadingPhase = Phase.idle ∧
    (handleGenerate idleState filledForm (generateStrategyResult none "Unexpected token")
        (Except.ok "x")).1.error
      = some (jsOr "Unexpected token" strategyFallbackMsg) :=
  c8_unparseable_json_no_result idleState filledForm "Unexpected token"
    (Except.ok "x") (by decide) (by decide)

/-- C9: when the first candidate's parts contain inline image data, the renderer
returns the fixed PNG data-URL lead-in concatenated with the data of the first such
part in order, whatever that part's declared media type; and every successful result
begins with that lead-in. -/
theorem c9_first_inline_data_url (r : ImageResponse) (l1 l2 : List RespPart)
    (p : RespPart) (d : RespInlineData)
    (hl : firstParts r = some (l1 ++ p :: l2))
    (h1 : ∀ q ∈ l1, q.inlineData = none) (hp : p.inlineData = some d) :
    extractImage r = Except.ok (dataUrlPngHead ++ d.data) ∧
    strStartsWith (dataUrlPngHead ++ d.data) dataUrlPngHead = true ∧
    ∀ (r2 : ImageResponse) (res : String),
      extractImage r2 = Except.ok res → strStartsWith res dataUrlPngHead = true := by
  refine ⟨?_, strStartsWith_append dataUrlPngHead d.data, ?_⟩
  · simp [extractImage, hl, firstInline_append_none (p :: l2) h1, firstInline, hp]
  · intro r2 res h
    cases hfp : firstParts r2 with
    | none => simp [extractImage, hfp] at h
    | some parts =>
      cases hfi : firstInline parts with
      | none => simp [extractImage, hfp, hfi] at h
      | some d2 =>
        simp [extractImage, hfp, hfi] at h
        rw [← h]
        exact strStartsWith_append dataUrlPngHead d2.data

/-- Witness for C9 at a concrete response whose image part declares a JPEG type. -/
theorem c9_first_inline_data_url_witness :
    extractImage respWithImage = Except.ok (dataUrlPngHead ++ "AAAA") ∧
    strStartsWith (dataUrlPngHead ++ "AAAA") dataUrlPngHead = true := by
  have h := c9_first_inline_data_url respWithImage [textOnlyPart] []
    { inlineData := some jpegInline } jpegInline rfl (by decide) rfl
  exact ⟨h.1, h.2.1⟩

/-- C10, counterexample: for a data field holding two commas, the transmitted payload
is the segment between the first and second commas, not the whole substring after the
first comma as claimed. -/
theorem c10_second_segment_counterexample :
    inlinePayload ⟨"a,b,c", "image/png"⟩ = some "b" ∧
    claimedPayloadStr "a,b,c" = some "b,c" ∧
    inlinePayload ⟨"a,b,c", "image/png"⟩ ≠ claimedPayloadStr "a,b,c" := by
  refine ⟨rfl, rfl, ?_⟩
  decide

/-- C10 (amended): both services transmit, for each reference image in order, an
inline part carrying the image's declared media type and the second comma-delimited
segment of its data field — for a data-URL-shaped field (one comma, comma-free
remainder) exactly the substring after the comma — and a data field with no comma
transmits an absent payload. -/
theorem c10_inline_payload_second_segment :
    (∀ req : ThumbnailRequest, strategyRequestParts req =
      ReqPart.text (strategyPromptText req) ::
        req.subjectImages.map
          (fun img => ReqPart.inline (inlinePayload img) img.mimeType)) ∧
    (∀ (s : ThumbnailDesign) (ratio : String) (imgs : List ThumbnailImage),
      imageRequestParts s ratio imgs =
        ReqPart.text (imagePromptText s ratio) ::
          imgs.map (fun img => ReqPart.inline (inlinePayload img) img.mimeType)) ∧
    (∀ img : ThumbnailImage, ',' ∉ img.data.data → inlinePayload img = none) ∧
    (∀ (a b mt : String), ',' ∉ a.data → ',' ∉ b.data →
      inlinePayload ⟨a ++ ("," ++ b), mt⟩ = some b) := by
  refine ⟨fun req => rfl, fun s ratio imgs => rfl, ?_, ?_⟩
  · intro img h
    unfold inlinePayload jsSplitComma
    rw [splitComma_no_comma h]
    rfl
  · intro a b mt ha hb
    unfold inlinePayload jsSplitComma
    show ((splitComma (a.data ++ ',' :: b.data)).map String.mk)[1]? = some b
    rw [splitComma_past_lead b.data ha, splitComma_no_comma hb]
    rfl

/-- Witness for C10 at a data-URL-shaped field and a comma-free field. -/
theorem c10_inline_payload_second_segment_witness :
    inlinePayload ⟨"data:image/png;base64" ++ ("," ++ "AAAA"), "image/png"⟩
      = some "AAAA" ∧
    inlinePayload ⟨"nocommadata", "image/png"⟩ = none :=
  ⟨c10_inline_payload_second_segment.2.2.2 "data:image/png;base64" "AAAA" "image/png"
      (by decide) (by decide),
   c10_inline_payload_second_segment.2.2.1 ⟨"nocommadata", "image/png"⟩ (by decide)⟩

end Thumbnail
